import Mathlib

-- Verification of the trend-detection and adaptive-scheduling control loop:
-- a shallow embedding of the TrendSnipper agent (trend-detection/detector.js,
-- TrendDetectionService, SchedulerService.js, utils/topic-manager.js).
-- Machine numbers that JavaScript holds as doubles are modelled as Nat or Rat;
-- every external effect (clock, feed source, oracle, Math.random) is an input.

namespace TrendSnipper

-- JavaScript truthiness helpers: `x || d` where 0 and the empty string are
-- falsy, and `x || null` on strings.

def jsOrNat (x : Option Nat) (d : Nat) : Nat :=
  match x with
  | some n => if n = 0 then d else n
  | none => d

def jsOrRat (x : Option ℚ) (d : ℚ) : ℚ :=
  match x with
  | some q => if q = 0 then d else q
  | none => d

def jsOrStr (x : Option String) (d : String) : String :=
  match x with
  | some s => if s = "" then d else s
  | none => d

def jsStrOrNone (x : Option String) : Option String :=
  match x with
  | some s => if s = "" then none else some s
  | none => none

-- A JavaScript Map as an insertion-ordered association list: `set` on an
-- existing key replaces its value in place, a new key is appended at the end.

def jsMapSet {α : Type} {β : Type} [DecidableEq α]
    (m : List (α × β)) (k : α) (v : β) : List (α × β) :=
  if k ∈ m.map Prod.fst then
    m.map fun p => if p.1 = k then (k, v) else p
  else
    m ++ [(k, v)]

def jsMapGet {α : Type} {β : Type} [DecidableEq α]
    (m : List (α × β)) (k : α) : Option β :=
  (m.find? fun p => decide (p.1 = k)).map Prod.snd

-- The Trend record built by trend-detection/detector.js. A JS field that a
-- construction site does not write is `none` or `false` here: reading an
-- absent field yields undefined, which is falsy and never === true.
structure Trend where
  term : String
  count : Nat
  growthRate : ℚ
  isNew : Bool
  category : Option String := none
  sentiment : Option String := none
  context : Option String := none
  isSynthetic : Bool := false
  createdAt : String := ""
  deriving Repr, DecidableEq

-- JavaScript stable sort with comparator (a, b) => b.growthRate - a.growthRate,
-- rendered as a stable insertion sort by descending growthRate.

def insertByGrowthDesc (t : Trend) : List Trend → List Trend
  | [] => [t]
  | u :: us =>
    if t.growthRate > u.growthRate then t :: u :: us
    else u :: insertByGrowthDesc t us

def sortByGrowthDesc : List Trend → List Trend
  | [] => []
  | t :: ts => insertByGrowthDesc t (sortByGrowthDesc ts)

-- The growth computation of identifyEmergingTrends (detector.js lines
-- 503-510): percentage growth against the previous count, or 100 for a term
-- that is new in this cycle.
def emergingGrowthRate (previousCount currentCount : Nat) : ℚ :=
  if previousCount > 0 then
    (((currentCount : ℚ) - (previousCount : ℚ)) / (previousCount : ℚ)) * 100
  else 100

-- The loop body of identifyEmergingTrends (detector.js lines 497-521): one
-- entry of the current frequency map either becomes a Trend or is dropped.
def identifyOne (previous : List (String × Nat)) (minOccurrences : Nat)
    (growthThreshold : ℚ) (nowIso : String) (e : String × Nat) : Option Trend :=
  if e.2 < minOccurrences then none
  else
    let previousCount := (jsMapGet previous e.1).getD 0
    let growthRate := emergingGrowthRate previousCount e.2
    if growthRate ≥ growthThreshold then
      some { term := e.1, count := e.2, growthRate := growthRate,
             isNew := previousCount == 0, createdAt := nowIso }
    else none

-- identifyEmergingTrends (detector.js lines 493-532) as a pure function of
-- the two frequency snapshots, the two thresholds and the current timestamp.
def identifyEmergingTrends (current previous : List (String × Nat))
    (minOccurrences : Nat) (growthThreshold : ℚ) (nowIso : String) : List Trend :=
  sortByGrowthDesc
    (current.filterMap (identifyOne previous minOccurrences growthThreshold nowIso))

-- One structured suggestion returned by the language-model oracle to
-- analyzeTrends; absent JSON fields are none.
structure AiTrend where
  term : String
  category : Option String := none
  confidence : Option ℚ := none
  context : Option String := none
  sentiment : Option String := none
  occurrences : Option Nat := none
  deriving Repr, DecidableEq

def confTruthy : Option ℚ → Bool
  | none => false
  | some c => !(c == 0)

-- The mapping step of analyzeWithAI (detector.js lines 312-333): one oracle
-- suggestion to one Trend, cross-referenced against the frequency maps.
def mapAiTrend (current previous : List (String × Nat)) (nowIso : String)
    (a : AiTrend) : Trend :=
  let currentCount := jsOrNat (jsMapGet current a.term) (jsOrNat a.occurrences 1)
  let previousCount := (jsMapGet previous a.term).getD 0
  let growthRate : ℚ :=
    if previousCount > 0 ∧ confTruthy a.confidence = false then
      (((currentCount : ℚ) - (previousCount : ℚ)) / (previousCount : ℚ)) * 100
    else a.confidence.getD 0
  { term := a.term, count := currentCount, growthRate := growthRate,
    isNew := previousCount == 0,
    category := jsStrOrNone a.category,
    sentiment := jsStrOrNone a.sentiment,
    context := jsStrOrNone a.context,
    createdAt := nowIso }

-- The list produced by a successful AI analysis (map then stable sort).
def analyzeWithAiTrends (current previous : List (String × Nat)) (nowIso : String)
    (aiTrends : List AiTrend) : List Trend :=
  sortByGrowthDesc (aiTrends.map (mapAiTrend current previous nowIso))

-- One value per Math.random() invocation of the synthetic generator, each a
-- rational in [0, 1).
structure SynthDraw where
  countDraw : ℚ := 0
  growthDraw : ℚ := 0
  newDraw : ℚ := 0
  sentDraw1 : ℚ := 0
  sentDraw2 : ℚ := 0
  deriving Repr

-- The aspects of a JS Date the generator reads: epoch milliseconds, month
-- (0-11), year, and the ISO string written into createdAt.
structure JsDate where
  nowMs : Nat
  month : Nat
  year : Nat
  iso : String

def ratFloorNat (q : ℚ) : Nat := q.floor.toNat

-- A suggestion from openaiClient.generateSyntheticTrends.
structure SynthSuggestion where
  term : String
  count : Option Nat := none
  confidence : Option ℚ := none
  category : Option String := none
  sentiment : Option String := none
  context : Option String := none
  deriving Repr, DecidableEq

-- The oracle-backed synthetic mapping (detector.js lines 381-391).
def mkOracleSyntheticTrend (d : SynthDraw) (iso : String)
    (s : SynthSuggestion) : Trend :=
  { term := s.term,
    count := jsOrNat s.count (ratFloorNat (d.countDraw * 100) + 20),
    growthRate := jsOrRat s.confidence ((ratFloorNat (d.growthDraw * 50) : ℚ) + 50),
    isNew := true,
    category := jsStrOrNone s.category,
    sentiment := jsStrOrNone s.sentiment,
    context := jsStrOrNone s.context,
    isSynthetic := true,
    createdAt := iso }

-- The static/seasonal candidate pool (detector.js lines 412-442).

def baseTrendTopics : List (String × String) :=
  [("#AI", "Technology"), ("#MachineLearning", "Technology"),
   ("#Blockchain", "Technology"), ("#DigitalTransformation", "Business"),
   ("#RemoteWork", "Work"), ("#SpaceExploration", "Science"),
   ("#Cybersecurity", "Technology")]

def seasonalTrendTopics (month : Nat) : List (String × String) :=
  if month = 3 then
    [("#Spring", "Seasons"), ("#EarthDay", "Environment")]
  else if month = 10 ∨ month = 11 then
    [("#HolidayShopping", "Retail"), ("#WinterPrep", "Lifestyle")]
  else if month = 5 ∨ month = 6 ∨ month = 7 then
    [("#SummerBreak", "Lifestyle"), ("#BeachDay", "Travel")]
  else []

def basicTrendTopics (d : JsDate) : List (String × String) :=
  (baseTrendTopics ++ seasonalTrendTopics d.month)
    ++ [("#Tech" ++ toString d.year, "Technology")]

-- The random selection loop (detector.js lines 444-452): while fewer than
-- numTrends are selected and the pool is nonempty, draw a uniformly random
-- index with Math.floor(Math.random() * pool.length) and splice it out. For
-- a draw in [0, 1) the modulus below is the identity on the floored index.
def selectRandomTopics (idxDraws : Nat → ℚ) :
    Nat → Nat → List (String × String) → List (String × String)
  | _, 0, _ => []
  | _, _, [] => []
  | k, Nat.succ n, p :: ps =>
    let pool := p :: ps
    let idx := ratFloorNat (idxDraws k * (pool.length : ℚ)) % pool.length
    pool.getD idx p :: selectRandomTopics idxDraws (k + 1) n (pool.eraseIdx idx)

-- The static-pool synthetic mapping (detector.js lines 455-464); the stored
-- sentiment mirrors r1 > 0.7 ? negative : r2 > 0.4 ? positive : neutral.
def mkBasicSyntheticTrend (d : SynthDraw) (iso : String)
    (t : String × String) : Trend :=
  { term := t.1,
    count := ratFloorNat (d.countDraw * 100) + 20,
    growthRate := (ratFloorNat (d.growthDraw * 50) : ℚ) + 50,
    isNew := decide ((1 : ℚ) / 2 < d.newDraw),
    category := some t.2,
    sentiment := some (if (7 : ℚ) / 10 < d.sentDraw1 then "negative"
      else if (2 : ℚ) / 5 < d.sentDraw2 then "positive" else "neutral"),
    isSynthetic := true,
    createdAt := iso }

-- The mutable fields of the TrendDetector instance.
structure DetectorState where
  previousTermFrequency : List (String × Nat) := []
  currentTermFrequency : List (String × Nat) := []
  emergingTrends : List Trend := []
  trendHistory : List (List Trend) := []
  lastSyntheticTrendsGeneration : Option Nat := none
  deriving Repr, DecidableEq

structure AnalysisConfig where
  minOccurrences : Nat
  growthThreshold : ℚ
  trendHistorySize : Option Nat := none
  deriving Repr, DecidableEq

-- updateTrendHistory (detector.js lines 481-490).
def updateTrendHistory (cfg : AnalysisConfig) (st : DetectorState) : DetectorState :=
  let history := st.trendHistory ++ [st.emergingTrends]
  let maxHistorySize := jsOrNat cfg.trendHistorySize 10
  { st with trendHistory := if history.length > maxHistorySize then history.tail else history }

-- The environment of one generateSyntheticTrends call: clock and calendar,
-- whether an OpenAI key is configured, the oracle outcome, and the random
-- draws (numDraw for the 3-5 count, idxDraws for selection, trendDraws i for
-- the draws inside the mapping of the i-th produced trend).
structure SynthEnv where
  date : JsDate
  apiKeyConfigured : Bool := false
  oracleFails : Bool := false
  oracleResult : List SynthSuggestion := []
  numDraw : ℚ := 0
  idxDraws : Nat → ℚ := fun _ => 0
  trendDraws : Nat → SynthDraw := fun _ => {}

-- generateSyntheticTrends (detector.js lines 353-478). The first branch is
-- the one-hour cooldown: it returns the stored emergingTrends unchanged. A
-- throwing oracle is caught and yields [] with no state change.
def generateSyntheticTrends (cfg : AnalysisConfig) (env : SynthEnv)
    (st : DetectorState) : List Trend × DetectorState :=
  let withinCooldown : Bool :=
    match st.lastSyntheticTrendsGeneration with
    | some t => decide (env.date.nowMs - t < 3600000)
    | none => false
  if withinCooldown then (st.emergingTrends, st)
  else if env.apiKeyConfigured ∧ env.oracleFails then ([], st)
  else if env.apiKeyConfigured ∧ env.oracleResult ≠ [] then
    let trends := env.oracleResult.enum.map fun p =>
      mkOracleSyntheticTrend (env.trendDraws p.1) env.date.iso p.2
    let st1 := updateTrendHistory cfg { st with emergingTrends := trends }
    (trends, { st1 with lastSyntheticTrendsGeneration := some env.date.nowMs })
  else
    let pool := basicTrendTopics env.date
    let numTrends := ratFloorNat (env.numDraw * 3) + 3
    let selected := selectRandomTopics env.idxDraws 0 numTrends pool
    let trends := selected.enum.map fun p =>
      mkBasicSyntheticTrend (env.trendDraws p.1) env.date.iso p.2
    let st1 := updateTrendHistory cfg { st with emergingTrends := trends }
    (trends, { st1 with lastSyntheticTrendsGeneration := some env.date.nowMs })

-- Cycle statistics (the trendSnipper.cycleStats object).
structure CycleStats where
  totalTweets : Nat := 0
  successfulCycles : Nat := 0
  failedCycles : Nat := 0
  publishedTrends : Nat := 0
  totalTrendsFound : Nat := 0
  averageTweetsPerCycle : ℚ := 0
  cycleTweetCounts : List Nat := []
  lastCycleTime : Option Nat := none
  deriving Repr, DecidableEq

inductive ActivityLevel
  | low
  | medium
  | high
  deriving Repr, DecidableEq

structure ActivityThresholds where
  highActivityMinTweets : Option Nat := none
  lowActivityMaxTweets : Option Nat := none
  deriving Repr, DecidableEq

structure DynamicSchedulerConfig where
  enabled : Bool
  activityThresholds : Option ActivityThresholds := none
  minInterval : Option String := none
  maxInterval : Option String := none
  defaultInterval : Option String := none
  deriving Repr, DecidableEq

-- adjustSchedulingBasedOnActivity (SchedulerService.js lines 59-144) as a
-- pure decision function: none when dynamic scheduling is disabled, else the
-- classified activity level and the chosen cron expression.
def adjustSchedulingBasedOnActivity (cfg : DynamicSchedulerConfig)
    (stats : CycleStats) : Option (ActivityLevel × String) :=
  if cfg.enabled = false then none
  else
    let newActivityLevel :=
      if stats.cycleTweetCounts.length ≥ 3 then
        let avgTweets := stats.averageTweetsPerCycle
        let highActivityThreshold :=
          match cfg.activityThresholds with
          | some t => jsOrNat t.highActivityMinTweets 200
          | none => 200
        let lowActivityThreshold :=
          match cfg.activityThresholds with
          | some t => jsOrNat t.lowActivityMaxTweets 50
          | none => 50
        let base :=
          if avgTweets > (highActivityThreshold : ℚ) then ActivityLevel.high
          else if avgTweets < (lowActivityThreshold : ℚ) then ActivityLevel.low
          else ActivityLevel.medium
        let totalCycles := stats.successfulCycles + stats.failedCycles
        if 0 < totalCycles ∧
            (stats.successfulCycles : ℚ) / (totalCycles : ℚ) < 3 / 10 then
          ActivityLevel.low
        else base
      else ActivityLevel.medium
    let newSchedule :=
      match newActivityLevel with
      | ActivityLevel.high => jsOrStr cfg.minInterval "0 */1 * * *"
      | ActivityLevel.low => jsOrStr cfg.maxInterval "0 */4 * * *"
      | ActivityLevel.medium => jsOrStr cfg.defaultInterval "0 */2 * * *"
    some (newActivityLevel, newSchedule)

-- A collected post; identity is the id field, and a post with an empty
-- (falsy) id is skipped by the deduplication step.
structure Post where
  id : String
  text : String := ""
  deriving Repr, DecidableEq

-- One iteration of the merge loop: tweetMap.set(tweet.id, tweet) guarded by
-- the truthiness of tweet and tweet.id.
def dedupeStep (m : List (String × Post)) (t : Post) : List (String × Post) :=
  if t.id = "" then m else jsMapSet m t.id t

-- Merge and deduplicate by id (enhanced TrendDetectionService,
-- runTrendDetectionCycle step 4): a JS Map keyed by id, then
-- Array.from(map.values()).
def dedupeTweets (tweets : List Post) : List Post :=
  (tweets.foldl dedupeStep []).map Prod.snd

-- The statistics update after deduplication (runTrendDetectionCycle,
-- lines 122-134): push the unique count, trim to the last 10, recompute the
-- rolling average with reduce.
def updateCycleTweetStats (stats : CycleStats) (n : Nat) : CycleStats :=
  let counts0 := stats.cycleTweetCounts ++ [n]
  let counts := if counts0.length > 10 then counts0.tail else counts0
  { stats with
    totalTweets := stats.totalTweets + n,
    cycleTweetCounts := counts,
    averageTweetsPerCycle :=
      if counts.length > 0 then
        (counts.foldl (fun (s : ℚ) (c : Nat) => s + (c : ℚ)) 0) / (counts.length : ℚ)
      else stats.averageTweetsPerCycle }

-- The external outcomes feeding the fallback chain: the global-trend
-- re-query result, the emergency search result, the synthetic-generation
-- gate and result, and the publishing gate.
structure FallbackInputs where
  globalTrends : List String := []
  trendTweets : List Post := []
  emergencyTweets : List Post := []
  syntheticEnabled : Bool := false
  syntheticTrends : List Trend := []
  publishingEnabled : Bool := false
  deriving Repr, DecidableEq

-- handleNoTweetsScenario (enhanced TrendDetectionService lines 357-436).
-- Strategy 2 only schedules a deferred discovery task and touches no
-- statistics. Note the final return []: even when the synthetic branch
-- succeeds and updates the statistics, the caller receives an empty list.
def handleNoTweetsScenario (inp : FallbackInputs) (now : Nat)
    (stats : CycleStats) : List Post × CycleStats :=
  if inp.globalTrends ≠ [] ∧ inp.trendTweets ≠ [] then (inp.trendTweets, stats)
  else if inp.emergencyTweets ≠ [] then (inp.emergencyTweets, stats)
  else if inp.syntheticEnabled ∧ inp.syntheticTrends ≠ [] then
    ([], { stats with
      publishedTrends := stats.publishedTrends + (if inp.publishingEnabled then 1 else 0),
      successfulCycles := stats.successfulCycles + 1,
      totalTrendsFound := stats.totalTrendsFound + inp.syntheticTrends.length,
      lastCycleTime := some now })
  else ([], stats)

-- handleFailedCycle (enhanced TrendDetectionService lines 546-562).
def handleFailedCycle (now : Nat) (stats : CycleStats) : CycleStats :=
  { stats with failedCycles := stats.failedCycles + 1, lastCycleTime := some now }

structure OrchestratorState where
  stats : CycleStats := {}
  fallbackAttempts : Nat := 0
  deriving Repr, DecidableEq

-- The empty-check step of runTrendDetectionCycle (lines 136-151): none means
-- the cycle ended inside this step (all strategies failed for the caller).
def runEmptyCheck (allTweets : List Post) (inp : FallbackInputs) (now : Nat)
    (st : OrchestratorState) : Option (List Post) × OrchestratorState :=
  if allTweets.length = 0 then
    let st1 : OrchestratorState :=
      { st with fallbackAttempts := st.fallbackAttempts + 1 }
    let r := handleNoTweetsScenario inp now st1.stats
    let st2 : OrchestratorState := { st1 with stats := r.2 }
    if r.1.length = 0 then
      (none, { st2 with stats := handleFailedCycle now st2.stats })
    else (some r.1, st2)
  else (some allTweets, { st with fallbackAttempts := 0 })

-- The TopicSet owned by the topic manager (utils/topic-manager.js).

structure Category where
  name : String
  active : Bool
  deriving Repr, DecidableEq

structure DiscoveryCycleRecord where
  date : String
  topicsAdded : Nat
  accountsAdded : Nat
  deriving Repr, DecidableEq

structure TopicSet where
  hashtags : List String
  accounts : List String
  categories : List Category
  lastUpdated : String
  history : List DiscoveryCycleRecord := []
  deriving Repr, DecidableEq

-- Result of one mutating TopicManager operation: the new state, the returned
-- boolean, and whether saveTopics persisted the state during the call.
structure TopicOpResult where
  state : TopicSet
  returned : Bool
  persisted : Bool
  deriving Repr, DecidableEq

def strHeadIs (s : String) (c : Char) : Bool := s.data.head? == some c

-- hashtag.startsWith(hash) ? hashtag : hash + hashtag (part_009 line 138).
def canonicalHashtag (h : String) : String :=
  if strHeadIs h '#' then h else "#" ++ h

-- account.startsWith(at) ? account.substring(1) : account (part_009 line 157).
def canonicalAccount (a : String) : String :=
  if strHeadIs a '@' then a.drop 1 else a

-- addHashtag (part_009 lines 134-150).
def addHashtag (ts : TopicSet) (nowIso : String) (hashtag : String) : TopicOpResult :=
  if hashtag = "" then ⟨ts, false, false⟩
  else
    let formatted := canonicalHashtag hashtag
    if formatted ∈ ts.hashtags then ⟨ts, false, false⟩
    else
      ⟨{ ts with hashtags := ts.hashtags ++ [formatted], lastUpdated := nowIso },
        true, true⟩

-- addAccount (part_009 lines 153-169).
def addAccount (ts : TopicSet) (nowIso : String) (account : String) : TopicOpResult :=
  if account = "" then ⟨ts, false, false⟩
  else
    let username := canonicalAccount account
    if username ∈ ts.accounts then ⟨ts, false, false⟩
    else
      ⟨{ ts with accounts := ts.accounts ++ [username], lastUpdated := nowIso },
        true, true⟩

-- findIndex on a case-insensitive name match followed by the in-place update,
-- rendered as one recursive pass; none when no category matches.
def setCategoryInList (categoryName : String) (active : Bool) :
    List Category → Option (List Category)
  | [] => none
  | c :: cs =>
    if c.name.toLower = categoryName.toLower then
      some ({ c with active := active } :: cs)
    else (setCategoryInList categoryName active cs).map (c :: ·)

-- setCategoryStatus (part_009 lines 172-194): update the first match, or
-- append a fresh category; both branches persist and return true.
def setCategoryStatus (ts : TopicSet) (nowIso : String) (categoryName : String)
    (active : Bool) : TopicOpResult :=
  match setCategoryInList categoryName active ts.categories with
  | some cats => ⟨{ ts with categories := cats, lastUpdated := nowIso }, true, true⟩
  | none =>
    ⟨{ ts with
        categories := ts.categories ++ [{ name := categoryName, active := active }],
        lastUpdated := nowIso },
      true, true⟩

-- Concrete instances used by the counterexamples and witnesses below.

def cfgSynthDemo : AnalysisConfig := { minOccurrences := 2, growthThreshold := 50 }

-- A fresh static-pool generation in January 2026 with every random draw 0.
def envStaticDemo : SynthEnv :=
  { date := { nowMs := 0, month := 0, year := 2026, iso := "t" } }

def tBasicAI : Trend := mkBasicSyntheticTrend {} "t" ("#AI", "Technology")

def tBasicML : Trend := mkBasicSyntheticTrend {} "t" ("#MachineLearning", "Technology")

def tBasicBC : Trend := mkBasicSyntheticTrend {} "t" ("#Blockchain", "Technology")

-- A non-synthetic trend stored in emergingTrends by a prior real analysis.
def realTrendDemo : Trend :=
  { term := "#foo", count := 5, growthRate := 150, isNew := false, createdAt := "t0" }

-- Detector state 30 minutes after a synthetic generation, after a real
-- analysis overwrote emergingTrends (reachable: generateSyntheticTrends at
-- time 0, then a cycle with posts ran identifyEmergingTrends, which updates
-- emergingTrends but not lastSyntheticTrendsGeneration).
def stCooldownDemo : DetectorState :=
  { emergingTrends := [realTrendDemo], lastSyntheticTrendsGeneration := some 0 }

def envCooldownDemo : SynthEnv :=
  { date := { nowMs := 1800000, month := 0, year := 2025, iso := "t1" },
    apiKeyConfigured := true, oracleResult := [{ term := "#gen" }] }

def tNewDemo : Trend :=
  { term := "#foo", count := 2, growthRate := 100, isNew := true, createdAt := "t" }

def aiNoConfidence : AiTrend := { term := "zzz" }

def cfgSchedDemo : DynamicSchedulerConfig := { enabled := true }

-- One failed cycle before any tweet count was pushed (reachable: the first
-- cycle throws before the dedup step, the catch block increments failedCycles
-- and calls adjustSchedulingBasedOnActivity).
def statsFailedDemo : CycleStats := { failedCycles := 1 }

def synthTrendDemo : Trend :=
  { term := "#x", count := 1, growthRate := 100, isNew := true, isSynthetic := true }

-- All feed queries empty, oracle-backed synthetic generation succeeds.
def inpAllEmptyDemo : FallbackInputs :=
  { syntheticEnabled := true, syntheticTrends := [synthTrendDemo] }

def postDupA : Post := { id := "1", text := "a" }
def postDupB : Post := { id := "1", text := "b" }

def tsDemo : TopicSet :=
  { hashtags := [], accounts := [], categories := [], lastUpdated := "t0" }

def hashSign : Char := '#'

def atSign : Char := '@'

-- A high-volume but failing statistics state: average 500 over 3 samples,
-- success rate 1/10.
def statsLowWitness : CycleStats :=
  { successfulCycles := 1, failedCycles := 9, averageTweetsPerCycle := 500,
    cycleTweetCounts := [500, 500, 500] }

-- Helper lemmas shared by the claim theorems.

theorem mem_insertByGrowthDesc {t u : Trend} : ∀ {l : List Trend},
    u ∈ insertByGrowthDesc t l ↔ u = t ∨ u ∈ l
  | [] => by simp [insertByGrowthDesc]
  | v :: vs => by
    simp only [insertByGrowthDesc]
    split
    · simp [List.mem_cons]
    · rw [List.mem_cons, mem_insertByGrowthDesc (l := vs), List.mem_cons]
      tauto

theorem mem_sortByGrowthDesc {u : Trend} : ∀ {l : List Trend},
    u ∈ sortByGrowthDesc l ↔ u ∈ l
  | [] => Iff.rfl
  | t :: ts => by
    simp only [sortByGrowthDesc, mem_insertByGrowthDesc,
      mem_sortByGrowthDesc (l := ts), List.mem_cons]

theorem mem_identifyEmergingTrends {current previous : List (String × Nat)}
    {minOccurrences : Nat} {growthThreshold : ℚ} {nowIso : String} {t : Trend} :
    t ∈ identifyEmergingTrends current previous minOccurrences growthThreshold nowIso ↔
      ∃ e ∈ current,
        identifyOne previous minOccurrences growthThreshold nowIso e = some t := by
  rw [identifyEmergingTrends, mem_sortByGrowthDesc, List.mem_filterMap]

theorem identifyOne_eq_some {previous : List (String × Nat)} {minOccurrences : Nat}
    {growthThreshold : ℚ} {nowIso : String} {e : String × Nat} {t : Trend}
    (h : identifyOne previous minOccurrences growthThreshold nowIso e = some t) :
    minOccurrences ≤ e.2 ∧
    growthThreshold ≤ emergingGrowthRate ((jsMapGet previous e.1).getD 0) e.2 ∧
    t = { term := e.1, count := e.2,
          growthRate := emergingGrowthRate ((jsMapGet previous e.1).getD 0) e.2,
          isNew := (jsMapGet previous e.1).getD 0 == 0, createdAt := nowIso } := by
  unfold identifyOne at h
  split at h
  · exact absurd h (by simp)
  · next h1 =>
    dsimp only at h
    split at h
    · next h2 =>
      exact ⟨Nat.le_of_not_lt h1, h2, (Option.some.injEq _ _ ▸ h).symm⟩
    · exact absurd h (by simp)

theorem identifyOne_of_conditions {previous : List (String × Nat)}
    {minOccurrences : Nat} {growthThreshold : ℚ} {nowIso : String}
    {e : String × Nat} (h1 : minOccurrences ≤ e.2)
    (h2 : growthThreshold ≤ emergingGrowthRate ((jsMapGet previous e.1).getD 0) e.2) :
    identifyOne previous minOccurrences growthThreshold nowIso e =
      some { term := e.1, count := e.2,
             growthRate := emergingGrowthRate ((jsMapGet previous e.1).getD 0) e.2,
             isNew := (jsMapGet previous e.1).getD 0 == 0, createdAt := nowIso } := by
  unfold identifyOne
  rw [if_neg (Nat.not_lt.mpr h1)]
  dsimp only
  rw [if_pos h2]

theorem assoc_val_unique {α β : Type} {l : List (α × β)}
    (hnd : (l.map Prod.fst).Nodup) {k : α} {a b : β}
    (ha : (k, a) ∈ l) (hb : (k, b) ∈ l) : a = b := by
  induction l with
  | nil => cases ha
  | cons p ps ih =>
    rw [List.map_cons, List.nodup_cons] at hnd
    rcases List.mem_cons.mp ha with ha1 | ha1 <;>
      rcases List.mem_cons.mp hb with hb1 | hb1
    · rw [← ha1] at hb1
      exact congrArg Prod.snd hb1.symm
    · exfalso
      apply hnd.1
      have hp1 : p.1 = k := by rw [← ha1]
      rw [hp1]
      exact List.mem_map_of_mem Prod.fst hb1
    · exfalso
      apply hnd.1
      have hp1 : p.1 = k := by rw [← hb1]
      rw [hp1]
      exact List.mem_map_of_mem Prod.fst ha1
    · exact ih hnd.2 ha1 hb1

theorem mem_analyzeWithAiTrends {current previous : List (String × Nat)}
    {nowIso : String} {aiTrends : List AiTrend} {t : Trend} :
    t ∈ analyzeWithAiTrends current previous nowIso aiTrends ↔
      ∃ a ∈ aiTrends, t = mapAiTrend current previous nowIso a := by
  rw [analyzeWithAiTrends, mem_sortByGrowthDesc, List.mem_map]
  constructor
  · rintro ⟨a, ha, rfl⟩
    exact ⟨a, ha, rfl⟩
  · rintro ⟨a, ha, rfl⟩
    exact ⟨a, ha, rfl⟩

theorem jsMapSet_map_fst {α β : Type} [DecidableEq α] (m : List (α × β)) (k : α) (v : β) :
    (jsMapSet m k v).map Prod.fst =
      if k ∈ m.map Prod.fst then m.map Prod.fst else m.map Prod.fst ++ [k] := by
  unfold jsMapSet
  split
  · rw [List.map_map]
    apply List.map_congr_left
    intro p hp
    by_cases hpk : p.1 = k
    · simp [hpk]
    · simp [hpk]
  · rw [List.map_append]
    rfl

theorem mem_jsMapSet_map_fst {α β : Type} [DecidableEq α]
    (m : List (α × β)) (k : α) (v : β) (a : α) :
    a ∈ (jsMapSet m k v).map Prod.fst ↔ a ∈ m.map Prod.fst ∨ a = k := by
  rw [jsMapSet_map_fst]
  split
  · next h =>
    constructor
    · exact Or.inl
    · rintro (h1 | rfl)
      · exact h1
      · exact h
  · next h => simp [List.mem_append]

theorem nodup_jsMapSet {α β : Type} [DecidableEq α]
    {m : List (α × β)} {k : α} {v : β} (hnd : (m.map Prod.fst).Nodup) :
    ((jsMapSet m k v).map Prod.fst).Nodup := by
  rw [jsMapSet_map_fst]
  split
  · exact hnd
  · next h =>
    rw [List.nodup_append]
    refine ⟨hnd, List.nodup_singleton k, ?_⟩
    intro a ha hb
    rw [List.mem_singleton] at hb
    subst hb
    exact h ha

-- The values of the deduplication map always record their own key.
def MapWF (m : List (String × Post)) : Prop := ∀ p ∈ m, Post.id p.2 = p.1

theorem mapWF_jsMapSet {m : List (String × Post)} {k : String} {v : Post}
    (hwf : MapWF m) (hv : v.id = k) : MapWF (jsMapSet m k v) := by
  unfold jsMapSet
  split
  · intro p hp
    rw [List.mem_map] at hp
    obtain ⟨q, hq, rfl⟩ := hp
    by_cases hqk : q.1 = k
    · simp only [if_pos hqk]
      exact hv
    · simp only [if_neg hqk]
      exact hwf q hq
  · intro p hp
    rcases List.mem_append.mp hp with h | h
    · exact hwf p h
    · rw [List.mem_singleton] at h
      subst h
      exact hv

theorem dedupeFold_nodup : ∀ (l : List Post) (m : List (String × Post)),
    (m.map Prod.fst).Nodup → ((l.foldl dedupeStep m).map Prod.fst).Nodup
  | [], _, hnd => hnd
  | t :: ts, m, hnd => by
    rw [List.foldl_cons]
    apply dedupeFold_nodup ts
    unfold dedupeStep
    split
    · exact hnd
    · exact nodup_jsMapSet hnd

theorem dedupeFold_wf : ∀ (l : List Post) (m : List (String × Post)),
    MapWF m → MapWF (l.foldl dedupeStep m)
  | [], _, hwf => hwf
  | t :: ts, m, hwf => by
    rw [List.foldl_cons]
    apply dedupeFold_wf ts
    unfold dedupeStep
    split
    · exact hwf
    · exact mapWF_jsMapSet hwf rfl

theorem mem_dedupeFold : ∀ (l : List Post) (m : List (String × Post)) (a : String),
    (a ∈ (l.foldl dedupeStep m).map Prod.fst ↔
      a ∈ m.map Prod.fst ∨ (a ≠ "" ∧ ∃ p ∈ l, Post.id p = a))
  | [], m, a => by simp
  | t :: ts, m, a => by
    rw [List.foldl_cons]
    by_cases hid : t.id = ""
    · rw [show dedupeStep m t = m from by simp [dedupeStep, hid]]
      rw [mem_dedupeFold ts m a]
      constructor
      · rintro (h | ⟨hne, p, hp, hpa⟩)
        · exact Or.inl h
        · exact Or.inr ⟨hne, p, List.mem_cons_of_mem t hp, hpa⟩
      · rintro (h | ⟨hne, p, hp, hpa⟩)
        · exact Or.inl h
        · rcases List.mem_cons.mp hp with rfl | hp1
          · exact absurd (hpa.symm.trans hid) hne
          · exact Or.inr ⟨hne, p, hp1, hpa⟩
    · rw [show dedupeStep m t = jsMapSet m t.id t from by simp [dedupeStep, hid]]
      rw [mem_dedupeFold ts (jsMapSet m t.id t) a, mem_jsMapSet_map_fst]
      constructor
      · rintro ((h | rfl) | ⟨hne, p, hp, hpa⟩)
        · exact Or.inl h
        · exact Or.inr ⟨hid, t, List.mem_cons_self t ts, rfl⟩
        · exact Or.inr ⟨hne, p, List.mem_cons_of_mem t hp, hpa⟩
      · rintro (h | ⟨hne, p, hp, hpa⟩)
        · exact Or.inl (Or.inl h)
        · rcases List.mem_cons.mp hp with rfl | hp1
          · exact Or.inl (Or.inr hpa.symm)
          · exact Or.inr ⟨hne, p, hp1, hpa⟩

theorem dedupeTweets_map_id (l : List Post) :
    (dedupeTweets l).map Post.id = (l.foldl dedupeStep []).map Prod.fst := by
  unfold dedupeTweets
  rw [List.map_map]
  apply List.map_congr_left
  intro p hp
  exact dedupeFold_wf l [] (by intro q hq; cases hq) p hp

-- Branch analysis of one fresh (non-cooldown) generateSyntheticTrends call.
theorem generateSyntheticTrends_fresh_shape (cfg : AnalysisConfig) (env : SynthEnv)
    (st : DetectorState) (t : Trend)
    (hfresh : ∀ t0, st.lastSyntheticTrendsGeneration = some t0 →
      3600000 ≤ env.date.nowMs - t0)
    (ht : t ∈ (generateSyntheticTrends cfg env st).1) :
    t.isSynthetic = true ∧
    (env.apiKeyConfigured = true → env.oracleFails = false →
      env.oracleResult ≠ [] → t.isNew = true) := by
  unfold generateSyntheticTrends at ht
  have hcool : (match st.lastSyntheticTrendsGeneration with
      | some t0 => decide (env.date.nowMs - t0 < 3600000)
      | none => false) = false := by
    cases h : st.lastSyntheticTrendsGeneration with
    | none => rfl
    | some t0 =>
      simp only [decide_eq_false_iff_not, Nat.not_lt]
      exact hfresh t0 h
  rw [hcool] at ht
  simp only [Bool.false_eq_true, if_false] at ht
  split at ht
  · next hfails =>
    cases ht
  · split at ht
    · next hok =>
      dsimp only at ht
      rw [List.mem_map] at ht
      obtain ⟨p, hp, rfl⟩ := ht
      exact ⟨rfl, fun _ _ _ => rfl⟩
    · next hnok =>
      dsimp only at ht
      rw [List.mem_map] at ht
      obtain ⟨p, hp, rfl⟩ := ht
      refine ⟨rfl, fun hk hf hr => absurd ⟨hk, hr⟩ hnok⟩

-- The within-cooldown branch returns the stored emergingTrends unchanged.
theorem generateSyntheticTrends_cooldown (cfg : AnalysisConfig) (env : SynthEnv)
    (st : DetectorState) (t0 : Nat)
    (hgen : st.lastSyntheticTrendsGeneration = some t0)
    (hlt : env.date.nowMs - t0 < 3600000) :
    generateSyntheticTrends cfg env st = (st.emergingTrends, st) := by
  unfold generateSyntheticTrends
  rw [hgen]
  simp only [decide_eq_true_eq, if_pos hlt]

theorem setCategoryInList_any {categoryName : String} {active : Bool} :
    ∀ {l l2 : List Category}, setCategoryInList categoryName active l = some l2 →
      l2.any (fun c => c.name.toLower == categoryName.toLower && c.active == active)
        = true
  | [], _, h => by cases h
  | c :: cs, l2, h => by
    unfold setCategoryInList at h
    split at h
    · next hname =>
      rw [Option.some.injEq] at h
      subst h
      simp [hname]
    · next hname =>
      rw [Option.map_eq_some'] at h
      obtain ⟨l3, h3, rfl⟩ := h
      rw [List.any_cons, setCategoryInList_any h3, Bool.or_true]

theorem foldl_add_cast (l : List Nat) (init : ℚ) :
    l.foldl (fun (s : ℚ) (c : Nat) => s + (c : ℚ)) init
      = init + (l.map (fun (c : Nat) => (c : ℚ))).sum := by
  induction l generalizing init with
  | nil => simp
  | cons a as ih =>
    rw [List.foldl_cons, ih, List.map_cons, List.sum_cons]
    ring

theorem ratFloorNat_zero : ratFloorNat 0 = 0 := by
  norm_num [ratFloorNat, Rat.floor_def']

-- With every index draw 0 the selection loop takes the pool prefix.
theorem selectRandomTopics_zeroDraws (k : Nat) : ∀ (n : Nat)
    (pool : List (String × String)),
    selectRandomTopics (fun _ => 0) k n pool = pool.take n
  | 0, [] => rfl
  | 0, _ :: _ => rfl
  | Nat.succ _, [] => rfl
  | Nat.succ n, p :: ps => by
    rw [selectRandomTopics]
    have hidx : ratFloorNat ((fun _ => (0 : ℚ)) k * (((p :: ps).length : Nat) : ℚ))
        % (p :: ps).length = 0 := by
      rw [show (fun _ => (0 : ℚ)) k = 0 from rfl, zero_mul, ratFloorNat_zero,
        Nat.zero_mod]
    rw [hidx]
    rw [List.getD_cons_zero, List.eraseIdx_cons_zero,
      selectRandomTopics_zeroDraws (k + 1) n ps, List.take_succ_cons]

-- Evaluation of the demo static-pool generation: three trends, the pool
-- prefix, each mapped with the all-zero draw record.
theorem generateStaticDemo_eval :
    (generateSyntheticTrends cfgSynthDemo envStaticDemo {}).1
      = [tBasicAI, tBasicML, tBasicBC] := by
  rw [generateSyntheticTrends]
  have hnum : ratFloorNat (envStaticDemo.numDraw * 3) + 3 = 3 := by
    rw [show envStaticDemo.numDraw = 0 from rfl, zero_mul, ratFloorNat_zero]
  simp only [hnum, envStaticDemo, cfgSynthDemo]
  rw [selectRandomTopics_zeroDraws]
  simp [basicTrendTopics, baseTrendTopics, seasonalTrendTopics, List.take,
    List.enum, List.enumFrom, tBasicAI, tBasicML, tBasicBC]

-- Helper: the stored average always equals the mean of the stored window.
theorem updateCycleTweetStats_avg (stats : CycleStats) (n : Nat) :
    (updateCycleTweetStats stats n).averageTweetsPerCycle =
      ((updateCycleTweetStats stats n).cycleTweetCounts.map
        (fun (c : Nat) => (c : ℚ))).sum /
        ((updateCycleTweetStats stats n).cycleTweetCounts.length : ℚ) := by
  unfold updateCycleTweetStats
  dsimp only
  by_cases hlong : (stats.cycleTweetCounts ++ [n]).length > 10
  · rw [if_pos hlong]
    have hpos : 0 < (stats.cycleTweetCounts ++ [n]).tail.length := by
      rw [List.length_tail]
      omega
    rw [if_pos hpos, foldl_add_cast, zero_add]
  · rw [if_neg hlong]
    have hpos : 0 < (stats.cycleTweetCounts ++ [n]).length := by
      rw [List.length_append]
      simp
    rw [if_pos hpos, foldl_add_cast, zero_add]

-- Claim theorems ----------------------------------------------------------

/-- C1: in the scenario the claim describes — every hashtag/account query,
global-trend re-query and emergency search empty, language-model oracle
succeeding, synthetic fallback enabled — the cycle increments
successfulCycles (inside the synthetic branch of handleNoTweetsScenario) but
ALSO increments failedCycles: handleNoTweetsScenario returns [] even on
synthetic success, so the caller runs handleFailedCycle. The claim (and the
spec, which is the evident intent: the code itself logs the cycle as
completed and then logs that every strategy failed) is violated by this
slip, recorded as a code bug. -/
theorem C1_synthetic_fallback_double_count :
    (runEmptyCheck [] inpAllEmptyDemo 1000 {}).1 = none ∧
    (runEmptyCheck [] inpAllEmptyDemo 1000 {}).2.stats.successfulCycles = 1 ∧
    (runEmptyCheck [] inpAllEmptyDemo 1000 {}).2.stats.failedCycles = 1 := by
  decide

/-- C2 counterexample: a generateSyntheticTrends call inside the one-hour
cooldown returns the stored emergingTrends list verbatim; in a reachable
state where a real analysis overwrote that list after the last synthetic
generation, the returned trends carry isSynthetic = false. -/
theorem C2_counterexample :
    (generateSyntheticTrends cfgSynthDemo envCooldownDemo stCooldownDemo).1
      = [realTrendDemo] ∧
    realTrendDemo.isSynthetic = false := by
  decide

/-- C2 (amended): every trend built by a fresh (non-cooldown) synthetic
generation — oracle-backed or static-pool — carries isSynthetic = true; the
cooldown path returns the stored emergingTrends unchanged, so its marking is
whatever that stored list carried; and no trend constructed by
identifyEmergingTrends or by the analyzeWithAI mapping ever carries
isSynthetic = true. -/
theorem C2_synthetic_marking :
    (∀ (cfg : AnalysisConfig) (env : SynthEnv) (st : DetectorState) (t : Trend),
      (∀ t0, st.lastSyntheticTrendsGeneration = some t0 →
        3600000 ≤ env.date.nowMs - t0) →
      t ∈ (generateSyntheticTrends cfg env st).1 → t.isSynthetic = true) ∧
    (∀ (cfg : AnalysisConfig) (env : SynthEnv) (st : DetectorState) (t0 : Nat),
      st.lastSyntheticTrendsGeneration = some t0 →
      env.date.nowMs - t0 < 3600000 →
      generateSyntheticTrends cfg env st = (st.emergingTrends, st)) ∧
    (∀ (current previous : List (String × Nat)) (minOccurrences : Nat)
      (growthThreshold : ℚ) (nowIso : String) (t : Trend),
      t ∈ identifyEmergingTrends current previous minOccurrences
        growthThreshold nowIso →
      t.isSynthetic = false) ∧
    (∀ (current previous : List (String × Nat)) (nowIso : String)
      (aiTrends : List AiTrend) (t : Trend),
      t ∈ analyzeWithAiTrends current previous nowIso aiTrends →
      t.isSynthetic = false) := by
  refine ⟨?_, ?_, ?_, ?_⟩
  · intro cfg env st t hfresh ht
    exact (generateSyntheticTrends_fresh_shape cfg env st t hfresh ht).1
  · intro cfg env st t0 hgen hlt
    exact generateSyntheticTrends_cooldown cfg env st t0 hgen hlt
  · intro current previous mo gt iso t ht
    obtain ⟨e, he, hsome⟩ := mem_identifyEmergingTrends.mp ht
    obtain ⟨-, -, rfl⟩ := identifyOne_eq_some hsome
    rfl
  · intro current previous iso aiTrends t ht
    obtain ⟨a, ha, rfl⟩ := mem_analyzeWithAiTrends.mp ht
    rfl

/-- C2 witness: the marking theorem applied to one concrete fresh
static-pool generation. -/
theorem C2_witness :
    tBasicAI ∈ (generateSyntheticTrends cfgSynthDemo envStaticDemo {}).1 ∧
    tBasicAI.isSynthetic = true :=
  have hmem : tBasicAI ∈ (generateSyntheticTrends cfgSynthDemo envStaticDemo {}).1 := by
    rw [generateStaticDemo_eval]
    exact List.mem_cons_self _ _
  ⟨hmem, C2_synthetic_marking.1 cfgSynthDemo envStaticDemo {} tBasicAI
    (fun t0 h => Option.noConfusion h) hmem⟩

/-- C3 counterexample: with all-zero random draws, the first static-pool
synthetic trend has isNew = false although its term has previous count 0
(the previous snapshot is empty): the static path draws isNew at random, so
isNew == (previousCount == 0) fails for the Synthetic Trend Generator. -/
theorem C3_counterexample :
    (generateSyntheticTrends cfgSynthDemo envStaticDemo {}).1.head?
      = some tBasicAI ∧
    tBasicAI.isNew = false ∧
    (jsMapGet (({} : DetectorState).previousTermFrequency) tBasicAI.term).getD 0
      = 0 := by
  refine ⟨by rw [generateStaticDemo_eval]; rfl, ?_, by rfl⟩
  show decide ((1 : ℚ) / 2 < SynthDraw.newDraw {}) = false
  norm_num

/-- C3 (amended): isNew == (previousCount == 0) holds for every trend from
the Trend Identifier and from the AI mapping; oracle-backed synthetic trends
always carry isNew = true; static-pool synthetic trends draw isNew at random
(true iff the draw exceeds one half), so the invariant does not extend to
them. -/
theorem C3_isNew_invariant :
    (∀ (current previous : List (String × Nat)) (minOccurrences : Nat)
      (growthThreshold : ℚ) (nowIso : String) (t : Trend),
      t ∈ identifyEmergingTrends current previous minOccurrences
        growthThreshold nowIso →
      (t.isNew = true ↔ (jsMapGet previous t.term).getD 0 = 0)) ∧
    (∀ (current previous : List (String × Nat)) (nowIso : String)
      (aiTrends : List AiTrend) (t : Trend),
      t ∈ analyzeWithAiTrends current previous nowIso aiTrends →
      (t.isNew = true ↔ (jsMapGet previous t.term).getD 0 = 0)) ∧
    (∀ (cfg : AnalysisConfig) (env : SynthEnv) (st : DetectorState) (t : Trend),
      (∀ t0, st.lastSyntheticTrendsGeneration = some t0 →
        3600000 ≤ env.date.nowMs - t0) →
      env.apiKeyConfigured = true → env.oracleFails = false →
      env.oracleResult ≠ [] →
      t ∈ (generateSyntheticTrends cfg env st).1 → t.isNew = true) := by
  refine ⟨?_, ?_, ?_⟩
  · intro current previous mo gt iso t ht
    obtain ⟨e, he, hsome⟩ := mem_identifyEmergingTrends.mp ht
    obtain ⟨-, -, rfl⟩ := identifyOne_eq_some hsome
    simp
  · intro current previous iso aiTrends t ht
    obtain ⟨a, ha, rfl⟩ := mem_analyzeWithAiTrends.mp ht
    simp [mapAiTrend]
  · intro cfg env st t hfresh hk hf hr ht
    exact (generateSyntheticTrends_fresh_shape cfg env st t hfresh ht).2 hk hf hr

/-- C3 witness: the invariant theorem applied to one concrete Trend
Identifier run with an empty previous snapshot. -/
theorem C3_witness :
    tNewDemo ∈ identifyEmergingTrends [("#foo", 2)] [] 2 100 "t" ∧
    tNewDemo.isNew = true :=
  ⟨by decide, (C3_isNew_invariant.1 [("#foo", 2)] [] 2 100 "t" tNewDemo
    (by decide)).mpr (by decide)⟩

/-- C4 counterexample: an AI suggestion without a confidence value whose term
has previous count 0 gets growthRate 0, not the new-term value 100 that the
claim asserts. -/
theorem C4_counterexample :
    (mapAiTrend [] [] "t" aiNoConfidence).growthRate = 0 ∧
    (jsMapGet ([] : List (String × Nat)) aiNoConfidence.term).getD 0 = 0 ∧
    (0 : ℚ) ≠ 100 := by
  decide

/-- C4 (amended): the AI mapping takes growthRate from the oracle confidence
whenever a truthy confidence is present; otherwise it recomputes
(current - previous)/previous * 100 when the previous count is positive, and
otherwise leaves the JavaScript default 0 (not the new-term value 100). -/
theorem C4_ai_growth_rate (current previous : List (String × Nat))
    (nowIso : String) (a : AiTrend) :
    (confTruthy a.confidence = true →
      (mapAiTrend current previous nowIso a).growthRate = a.confidence.getD 0) ∧
    (confTruthy a.confidence = false →
      0 < (jsMapGet previous a.term).getD 0 →
      (mapAiTrend current previous nowIso a).growthRate =
        (((jsOrNat (jsMapGet current a.term) (jsOrNat a.occurrences 1) : Nat) : ℚ) -
            (((jsMapGet previous a.term).getD 0 : Nat) : ℚ)) /
          (((jsMapGet previous a.term).getD 0 : Nat) : ℚ) * 100) ∧
    (confTruthy a.confidence = false →
      (jsMapGet previous a.term).getD 0 = 0 →
      (mapAiTrend current previous nowIso a).growthRate = 0) := by
  refine ⟨?_, ?_, ?_⟩
  · intro hconf
    unfold mapAiTrend
    dsimp only
    rw [if_neg]
    rintro ⟨h1, h2⟩
    rw [hconf] at h2
    cases h2
  · intro hconf hpos
    unfold mapAiTrend
    dsimp only
    rw [if_pos ⟨hpos, hconf⟩]
  · intro hconf hzero
    unfold mapAiTrend
    dsimp only
    rw [if_neg (by rintro ⟨h1, -⟩; rw [hzero] at h1; exact Nat.lt_irrefl 0 h1)]
    cases hc : a.confidence with
    | none => rfl
    | some c =>
      rw [hc] at hconf
      unfold confTruthy at hconf
      simp only [Bool.not_eq_false', beq_iff_eq] at hconf
      simp [hconf]

/-- C4 witness: the amended rule applied to a concrete suggestion with no
confidence and a positive previous count: growth is recomputed from the
frequency maps as (3 - 2)/2 * 100 = 50. -/
theorem C4_witness :
    confTruthy (AiTrend.confidence { term := "aa" }) = false ∧
    (mapAiTrend [("aa", 3)] [("aa", 2)] "t" { term := "aa" }).growthRate = 50 := by
  refine ⟨by decide, ?_⟩
  have h := (C4_ai_growth_rate [("aa", 3)] [("aa", 2)] "t" { term := "aa" }).2.1
    (by decide) (by decide)
  rw [h]
  norm_num [jsMapGet, jsOrNat, List.find?]

/-- C5 counterexample: a reachable state with one failed cycle and no
tweet-count samples has success rate 0 < 0.3, yet the policy classifies
medium and picks the default interval: the success-rate override sits inside
the at-least-3-samples branch, so it does not apply to every state the claim
quantifies over. -/
theorem C5_counterexample :
    adjustSchedulingBasedOnActivity cfgSchedDemo statsFailedDemo
      = some (ActivityLevel.medium, "0 */2 * * *") ∧
    0 < statsFailedDemo.successfulCycles + statsFailedDemo.failedCycles ∧
    ((statsFailedDemo.successfulCycles : ℚ) /
      (((statsFailedDemo.successfulCycles + statsFailedDemo.failedCycles : Nat)) : ℚ))
      < 3 / 10 := by
  refine ⟨by decide, by decide, ?_⟩
  norm_num [statsFailedDemo]

/-- C5 (amended): whenever dynamic scheduling is enabled AND cycleTweetCounts
holds at least 3 samples, a success rate below 0.3 forces the low activity
level and the maxInterval cadence regardless of average tweet volume. -/
theorem C5_low_success_rate_forces_low (cfg : DynamicSchedulerConfig)
    (stats : CycleStats) (henabled : cfg.enabled = true)
    (hsamples : stats.cycleTweetCounts.length ≥ 3)
    (hpos : 0 < stats.successfulCycles + stats.failedCycles)
    (hrate : (stats.successfulCycles : ℚ) /
      (((stats.successfulCycles + stats.failedCycles : Nat)) : ℚ) < 3 / 10) :
    adjustSchedulingBasedOnActivity cfg stats
      = some (ActivityLevel.low, jsOrStr cfg.maxInterval "0 */4 * * *") := by
  unfold adjustSchedulingBasedOnActivity
  rw [if_neg (by simp [henabled])]
  dsimp only
  rw [if_pos hsamples, if_pos ⟨hpos, hrate⟩]

/-- C5 witness: the amended rule at a concrete high-volume but failing state
(average 500 with success rate 0.1): low is forced and maxInterval chosen. -/
theorem C5_witness :
    adjustSchedulingBasedOnActivity cfgSchedDemo statsLowWitness
      = some (ActivityLevel.low, "0 */4 * * *") :=
  (C5_low_success_rate_forces_low cfgSchedDemo statsLowWitness rfl (by decide)
    (by decide) (by norm_num [statsLowWitness])).trans (by decide)

/-- C6: for a term whose current count meets minOccurrences, the Trend
Identifier includes the term when its growth rate equals the configured
threshold exactly, and excludes it when the growth rate is below the
threshold. -/
theorem C6_threshold_boundary (current previous : List (String × Nat))
    (minOccurrences : Nat) (growthThreshold : ℚ) (nowIso : String)
    (term : String) (c : Nat)
    (hnd : (current.map Prod.fst).Nodup)
    (hmem : (term, c) ∈ current)
    (hocc : minOccurrences ≤ c) :
    (emergingGrowthRate ((jsMapGet previous term).getD 0) c = growthThreshold →
      term ∈ (identifyEmergingTrends current previous minOccurrences
        growthThreshold nowIso).map Trend.term) ∧
    (emergingGrowthRate ((jsMapGet previous term).getD 0) c < growthThreshold →
      term ∉ (identifyEmergingTrends current previous minOccurrences
        growthThreshold nowIso).map Trend.term) := by
  constructor
  · intro heq
    rw [List.mem_map]
    refine ⟨{ term := term, count := c, growthRate := emergingGrowthRate ((jsMapGet previous term).getD 0) c, isNew := (jsMapGet previous term).getD 0 == 0, createdAt := nowIso }, ?_, rfl⟩
    rw [mem_identifyEmergingTrends]
    exact ⟨(term, c), hmem, identifyOne_of_conditions hocc (le_of_eq heq.symm)⟩
  · intro hlt hmemmap
    rw [List.mem_map] at hmemmap
    obtain ⟨t, ht, hterm⟩ := hmemmap
    obtain ⟨e, he, hsome⟩ := mem_identifyEmergingTrends.mp ht
    obtain ⟨h1, h2, rfl⟩ := identifyOne_eq_some hsome
    have hterm1 : e.1 = term := hterm
    have he2 : (term, e.2) ∈ current := by
      rw [← hterm1]
      exact he
    have hc2 : e.2 = c := assoc_val_unique hnd he2 hmem
    rw [hterm1, hc2] at h2
    exact absurd h2 (not_le.mpr hlt)

/-- C6 witness: the boundary theorem at a concrete current map where the
growth rate is exactly the threshold (new term, growth 100, threshold 100):
the term is included. -/
theorem C6_witness :
    "#foo" ∈ (identifyEmergingTrends [("#foo", 2)] [] 2 100 "t").map Trend.term :=
  (C6_threshold_boundary [("#foo", 2)] [] 2 100 "t" "#foo" 2 (by decide)
    (by decide) (by decide)).1 (by decide)

/-- C7: every trend the Trend Identifier emits for a term with previous
count 0 (and current count at least minOccurrences, which holds for every
emitted trend) carries growthRate = 100 and isNew = true. -/
theorem C7_new_term_trend (current previous : List (String × Nat))
    (minOccurrences : Nat) (growthThreshold : ℚ) (nowIso : String) (t : Trend)
    (ht : t ∈ identifyEmergingTrends current previous minOccurrences
      growthThreshold nowIso)
    (hprev : (jsMapGet previous t.term).getD 0 = 0) :
    t.growthRate = 100 ∧ t.isNew = true := by
  obtain ⟨e, he, hsome⟩ := mem_identifyEmergingTrends.mp ht
  obtain ⟨h1, h2, rfl⟩ := identifyOne_eq_some hsome
  have hprev1 : (jsMapGet previous e.1).getD 0 = 0 := hprev
  constructor
  · show emergingGrowthRate ((jsMapGet previous e.1).getD 0) e.2 = 100
    rw [hprev1]
    unfold emergingGrowthRate
    rw [if_neg (lt_irrefl 0)]
  · show ((jsMapGet previous e.1).getD 0 == 0) = true
    simp [hprev1]

/-- C7 witness: the new-term theorem at a concrete run with an empty previous
snapshot. -/
theorem C7_witness :
    tNewDemo ∈ identifyEmergingTrends [("#foo", 2)] [] 2 100 "t" ∧
    tNewDemo.growthRate = 100 ∧ tNewDemo.isNew = true :=
  ⟨by decide, C7_new_term_trend [("#foo", 2)] [] 2 100 "t" tNewDemo (by decide)
    (by decide)⟩

/-- C8 counterexample: permuting two posts that share an id changes which
post survives deduplication (the JS Map keeps the last write), so the output
list is not invariant under permutation of the input. -/
theorem C8_counterexample :
    ([postDupA, postDupB].Perm [postDupB, postDupA]) ∧
    dedupeTweets [postDupA, postDupB] ≠ dedupeTweets [postDupB, postDupA] := by
  constructor
  · exact List.Perm.swap postDupB postDupA []
  · decide

/-- C8 (amended): deduplication keeps each id exactly once (the output id
list is duplicate-free), a nonempty id survives iff some input post carries
it, and hence the SET of output ids is invariant under permutation of the
input; the output list itself (its order, and which duplicate survives) is
not invariant. -/
theorem C8_dedup_unique_ids :
    (∀ l : List Post, ((dedupeTweets l).map Post.id).Nodup) ∧
    (∀ (l : List Post) (a : String),
      a ∈ (dedupeTweets l).map Post.id ↔ a ≠ "" ∧ ∃ p ∈ l, Post.id p = a) ∧
    (∀ (l₁ l₂ : List Post), l₁.Perm l₂ → ∀ a : String,
      (a ∈ (dedupeTweets l₁).map Post.id ↔ a ∈ (dedupeTweets l₂).map Post.id)) := by
  have hmem : ∀ (l : List Post) (a : String),
      a ∈ (dedupeTweets l).map Post.id ↔ a ≠ "" ∧ ∃ p ∈ l, Post.id p = a := by
    intro l a
    rw [dedupeTweets_map_id, mem_dedupeFold]
    simp
  refine ⟨?_, hmem, ?_⟩
  · intro l
    rw [dedupeTweets_map_id]
    exact dedupeFold_nodup l [] List.nodup_nil
  · intro l₁ l₂ hperm a
    rw [hmem, hmem]
    constructor
    · rintro ⟨hne, p, hp, hpa⟩
      exact ⟨hne, p, hperm.mem_iff.mp hp, hpa⟩
    · rintro ⟨hne, p, hp, hpa⟩
      exact ⟨hne, p, hperm.mem_iff.mpr hp, hpa⟩

/-- C8 witness: the id-set invariance applied to the concrete swapped pair of
duplicate-id posts. -/
theorem C8_witness :
    "1" ∈ (dedupeTweets [postDupA, postDupB]).map Post.id ↔
      "1" ∈ (dedupeTweets [postDupB, postDupA]).map Post.id :=
  C8_dedup_unique_ids.2.2 [postDupA, postDupB] [postDupB, postDupA]
    (List.Perm.swap postDupB postDupA []) "1"

/-- C9: after each statistics update the window is the suffix of the pushed
list capped at the 10 most recent counts, the stored average equals the
arithmetic mean of the stored window, and the concrete 11-push scenario
[10..110] retains [20..110] with average 65. -/
theorem C9_sliding_window (stats : CycleStats) (n : Nat)
    (hlen : stats.cycleTweetCounts.length ≤ 10) :
    (updateCycleTweetStats stats n).cycleTweetCounts.length ≤ 10 ∧
    (updateCycleTweetStats stats n).cycleTweetCounts =
      (stats.cycleTweetCounts ++ [n]).drop
        (stats.cycleTweetCounts.length + 1 - 10) ∧
    (updateCycleTweetStats stats n).averageTweetsPerCycle =
      ((updateCycleTweetStats stats n).cycleTweetCounts.map
        (fun (c : Nat) => (c : ℚ))).sum /
        ((updateCycleTweetStats stats n).cycleTweetCounts.length : ℚ) ∧
    (List.foldl updateCycleTweetStats {}
      [10, 20, 30, 40, 50, 60, 70, 80, 90, 100, 110]).cycleTweetCounts
      = [20, 30, 40, 50, 60, 70, 80, 90, 100, 110] ∧
    (List.foldl updateCycleTweetStats {}
      [10, 20, 30, 40, 50, 60, 70, 80, 90, 100, 110]).averageTweetsPerCycle
      = 65 := by
  have key : (updateCycleTweetStats stats n).cycleTweetCounts =
      (stats.cycleTweetCounts ++ [n]).drop
        (stats.cycleTweetCounts.length + 1 - 10) := by
    unfold updateCycleTweetStats
    dsimp only
    by_cases hlong : (stats.cycleTweetCounts ++ [n]).length > 10
    · rw [if_pos hlong]
      rw [List.length_append, List.length_singleton] at hlong
      have harith : stats.cycleTweetCounts.length + 1 - 10 = 1 := by omega
      rw [harith, List.drop_one]
    · rw [if_neg hlong]
      rw [List.length_append, List.length_singleton] at hlong
      have harith : stats.cycleTweetCounts.length + 1 - 10 = 0 := by omega
      rw [harith, List.drop_zero]
  refine ⟨?_, key, updateCycleTweetStats_avg stats n, by decide,
    by norm_num [updateCycleTweetStats, List.foldl]⟩
  rw [key, List.length_drop, List.length_append, List.length_singleton]
  omega

/-- C9 witness: the window theorem applied to the empty statistics record. -/
theorem C9_witness :
    (({} : CycleStats).cycleTweetCounts.length ≤ 10) ∧
    (updateCycleTweetStats {} 5).cycleTweetCounts.length ≤ 10 :=
  ⟨by decide, (C9_sliding_window {} 5 (by decide)).1⟩

/-- C10 counterexample: addAccount strips exactly one leading at-sign, so an
account beginning with two of them is stored WITH a leading at-sign,
refuting the unconditional clause that accounts are stored without one. -/
theorem C10_counterexample :
    (addAccount tsDemo "t1" "@@bob").state.accounts = ["@bob"] ∧
    strHeadIs "@bob" atSign = true := by
  decide

/-- C10 (amended): addHashtag/addAccount mutate, persist and return true
exactly when the canonicalized entry was absent, and a duplicate add is a
no-op returning false without persisting; canonicalized hashtags always
start with the hash sign; the stored account has one leading at-sign
stripped — it has no leading at-sign whenever the input did not begin with
two; setCategoryStatus always mutates (first case-insensitive name match
updated, else the category appended), persists, and returns true. -/
theorem C10_topic_manager_ops (ts : TopicSet) (nowIso : String)
    (h a categoryName : String) (active : Bool) :
    (h ≠ "" → canonicalHashtag h ∈ ts.hashtags →
      addHashtag ts nowIso h = ⟨ts, false, false⟩) ∧
    (h ≠ "" → canonicalHashtag h ∉ ts.hashtags →
      addHashtag ts nowIso h = ⟨{ ts with hashtags := ts.hashtags ++ [canonicalHashtag h], lastUpdated := nowIso }, true, true⟩) ∧
    (strHeadIs (canonicalHashtag h) hashSign = true) ∧
    (a ≠ "" → canonicalAccount a ∈ ts.accounts →
      addAccount ts nowIso a = ⟨ts, false, false⟩) ∧
    (a ≠ "" → canonicalAccount a ∉ ts.accounts →
      addAccount ts nowIso a = ⟨{ ts with accounts := ts.accounts ++ [canonicalAccount a], lastUpdated := nowIso }, true, true⟩) ∧
    (strHeadIs a atSign = false ∨ strHeadIs (a.drop 1) atSign = false →
      strHeadIs (canonicalAccount a) atSign = false) ∧
    ((setCategoryStatus ts nowIso categoryName active).returned = true ∧
      (setCategoryStatus ts nowIso categoryName active).persisted = true ∧
      (setCategoryStatus ts nowIso categoryName active).state.lastUpdated
        = nowIso ∧
      ((setCategoryStatus ts nowIso categoryName active).state.categories.any
        (fun c => c.name.toLower == categoryName.toLower && c.active == active))
        = true) := by
  refine ⟨?_, ?_, ?_, ?_, ?_, ?_, ?_⟩
  · intro hne hdup
    unfold addHashtag
    rw [if_neg hne]
    dsimp only
    rw [if_pos hdup]
  · intro hne hnew
    unfold addHashtag
    rw [if_neg hne]
    dsimp only
    rw [if_neg hnew]
  · unfold canonicalHashtag
    rw [show hashSign = '#' from rfl]
    by_cases hh : strHeadIs h '#' = true
    · rw [if_pos hh]
      exact hh
    · rw [if_neg hh]
      rw [strHeadIs, String.data_append]
      rfl
  · intro hne hdup
    unfold addAccount
    rw [if_neg hne]
    dsimp only
    rw [if_pos hdup]
  · intro hne hnew
    unfold addAccount
    rw [if_neg hne]
    dsimp only
    rw [if_neg hnew]
  · intro hcases
    unfold canonicalAccount
    rw [show atSign = '@' from rfl] at hcases ⊢
    by_cases hat : strHeadIs a '@' = true
    · rw [if_pos hat]
      rcases hcases with hcase | hcase
      · rw [hat] at hcase
        cases hcase
      · exact hcase
    · rw [if_neg hat]
      exact Bool.not_eq_true _ ▸ hat
  · unfold setCategoryStatus
    cases hsc : setCategoryInList categoryName active ts.categories with
    | some cats =>
      exact ⟨rfl, rfl, rfl, setCategoryInList_any hsc⟩
    | none =>
      refine ⟨rfl, rfl, rfl, ?_⟩
      rw [List.any_append]
      simp

/-- C10 witness: the operations theorem applied to a concrete empty topic
set: a fresh hashtag is appended, persisted and reported as a change, and
setCategoryStatus reports true. -/
theorem C10_witness :
    addHashtag tsDemo "t1" "ai" = ⟨{ tsDemo with hashtags := tsDemo.hashtags ++ [canonicalHashtag "ai"], lastUpdated := "t1" }, true, true⟩ ∧
    (setCategoryStatus tsDemo "t1" "Tech" true).returned = true :=
  ⟨(C10_topic_manager_ops tsDemo "t1" "ai" "@bob" "Tech" true).2.1 (by decide)
      (by decide),
    (C10_topic_manager_ops tsDemo "t1" "ai" "@bob" "Tech" true).2.2.2.2.2.2.1⟩

end TrendSnipper
